import Mathlib

/-!
Verification development for the garments quality-control automation script
(`Garments-QC-Automation.py`).  The Python source is shallowly embedded:
cell values become the inductive type `Value`, Python floats are modelled as
exact rationals, Python strings as `String`.  String primitives that the
script relies on (`lower`, `strip`, `in`, `startswith`, `split`) are
re-implemented over `List Char` so that all definitions evaluate inside the
kernel.  Each embedded definition carries a comment pointing to the Python
function it translates.
-/

/-! ### Character-list string primitives -/

/-- Lexicographic "less than" on character lists, comparing code points.
This is how Python compares strings (`a < b` on `str`). -/
def charListLt : List Char → List Char → Bool
  | [], [] => false
  | [], _ :: _ => true
  | _ :: _, [] => false
  | a :: as, b :: bs => a < b || (a = b && charListLt as bs)

/-- Python `a < b` on strings. -/
def strLt (a b : String) : Bool := charListLt a.data b.data

/-- `charListBegins needle hay` : `hay` starts with `needle`. -/
def charListBegins : List Char → List Char → Bool
  | [], _ => true
  | _ :: _, [] => false
  | a :: as, b :: bs => a = b && charListBegins as bs

/-- `charListHasSub needle hay` : `needle` occurs contiguously in `hay`.
Models Python's `needle in hay` on strings. -/
def charListHasSub (needle : List Char) : List Char → Bool
  | [] => needle.isEmpty
  | b :: t => charListBegins needle (b :: t) || charListHasSub needle t

/-- Python `needle in hay` for strings. -/
def containsSub (hay needle : String) : Bool := charListHasSub needle.data hay.data

/-- Python `s.startswith(pre)`. -/
def strBegins (s pre : String) : Bool := charListBegins pre.data s.data

/-- Python `s.strip()` (whitespace stripping; the model covers the ASCII
whitespace characters recognised by `Char.isWhitespace`). -/
def trimChars (l : List Char) : List Char :=
  ((l.dropWhile Char.isWhitespace).reverse.dropWhile Char.isWhitespace).reverse

/-- Python `s.strip()` on `String`. -/
def pyStrip (s : String) : String := String.mk (trimChars s.data)

/-- Python `s.lower()` (ASCII case folding, which is all the script's
keywords "fail"/"rejected"/"pass" and the config labels need). -/
def pyLower (l : List Char) : List Char := l.map Char.toLower

/-- Python `s.lower()` on `String`. -/
def lowered (s : String) : String := String.mk (pyLower s.data)

/-! ### Cell values

`openpyxl` hands the script `None`, `str`, `int`, `float` or `datetime`
cell values; `Value` covers those five shapes.  Floats are modelled as exact
rationals (every IEEE float is a dyadic rational). -/

inductive Value where
  | vnone : Value
  | vstr (s : String) : Value
  | vint (n : Int) : Value
  | vnum (q : ℚ) : Value
  | vdate (year month day : Nat) : Value
deriving DecidableEq

/-- Decimal digits of `num/den` (with `num < den`), most significant first;
`fuel` bounds the length.  Used by the `str(float)` model: a float is a
dyadic rational, whose decimal expansion terminates, so for the values the
model produces the fuel is never exhausted. -/
def fracDigitsAux : Nat → Nat → Nat → String
  | 0, _, _ => ""
  | _ + 1, 0, _ => ""
  | f + 1, num, den =>
      (Char.ofNat (48 + num * 10 / den)).toString ++ fracDigitsAux f (num * 10 % den) den

/-- Model of Python `str(f)` for a float `f` (as produced by `repr`):
sign, integer part, `.`, fractional digits (`"x.0"` when integral). -/
def pyFloatRepr (q : ℚ) : String :=
  let sign := if q < 0 then "-" else ""
  let n := q.num.natAbs
  let ipart := n / q.den
  let frac := n % q.den
  sign ++ toString ipart ++ "." ++ (if frac = 0 then "0" else fracDigitsAux q.den frac q.den)

/-- Zero-padded two-digit decimal (as in `strftime` fields). -/
def pad2 (n : Nat) : String := if n < 10 then "0" ++ toString n else toString n

/-- Zero-padded four-digit decimal. -/
def pad4 (n : Nat) : String :=
  if n < 10 then "000" ++ toString n
  else if n < 100 then "00" ++ toString n
  else if n < 1000 then "0" ++ toString n
  else toString n

/-- Python `str(v)` on a cell value: `str(None) = "None"`, strings are
unchanged, ints print their digits, floats via `pyFloatRepr`, datetimes in
ISO form (midnight, as openpyxl dates carry no time here). -/
def pyStr : Value → String
  | .vnone => "None"
  | .vstr s => s
  | .vint n => toString n
  | .vnum q => pyFloatRepr q
  | .vdate y m d => pad4 y ++ "-" ++ pad2 m ++ "-" ++ pad2 d ++ " 00:00:00"

/-- Python truthiness of a cell value (`bool(v)`): `None`, `""`, `0` and
`0.0` are falsy; a `datetime` is always truthy. -/
def pyTruthy : Value → Bool
  | .vnone => false
  | .vstr s => !s.isEmpty
  | .vint n => n ≠ 0
  | .vnum q => q ≠ 0
  | .vdate _ _ _ => true

/-- Python `str(v or '')`, the idiom the script uses on raw cell values:
falsy values collapse to the empty string. -/
def pyStrOr (v : Value) : String := if pyTruthy v then pyStr v else ""

/-! ### `float(s)` and `safe_float`

Model of Python's `float` on strings: optional surrounding whitespace and
sign, decimal digits with optional point, optional decimal exponent.  (The
`inf`/`nan` spellings and digit underscores accepted by CPython are outside
the model; spreadsheet cells never contain them.)  The result is assembled
as integer numerator/denominator and a single `mkRat`, so it evaluates in
the kernel. -/

/-- Numeric value of a digit list (most significant first). -/
def digitsVal (ds : List Char) : Nat := ds.foldl (fun a c => a * 10 + (c.toNat - 48)) 0

/-- Parse an optional exponent suffix (`e`/`E`, optional sign, digits);
`some e` on success for the whole remaining input, `none` otherwise. -/
def expSigned : List Char → Option Int
  | '+' :: ds => if !ds.isEmpty && ds.all Char.isDigit then some (digitsVal ds) else none
  | '-' :: ds => if !ds.isEmpty && ds.all Char.isDigit then some (-(digitsVal ds : Int)) else none
  | ds => if !ds.isEmpty && ds.all Char.isDigit then some (digitsVal ds) else none

/-- Exponent part of a float literal: empty input means exponent `0`. -/
def expVal : List Char → Option Int
  | [] => some 0
  | 'e' :: rest => expSigned rest
  | 'E' :: rest => expSigned rest
  | _ => none

/-- Assemble `sgn * (ip.fp) * 10^e` as a rational. -/
def buildRat (sgn : Int) (ip fp : List Char) (e : Int) : ℚ :=
  let m : Int := sgn * ((digitsVal ip : Int) * (10 : Int) ^ fp.length + (digitsVal fp : Int))
  let k : Int := e - fp.length
  if 0 ≤ k then mkRat (m * (10 : Int) ^ k.toNat) 1 else mkRat m ((10 : Nat) ^ (-k).toNat)

/-- Model of Python `float(s)` on a string: `some q` when the string parses,
`none` when `float` would raise `ValueError`. -/
def floatOfStr? (s : String) : Option ℚ :=
  let cs := trimChars s.data
  let sgn : Int := match cs with
    | '-' :: _ => -1
    | _ => 1
  let cs := match cs with
    | '+' :: r => r
    | '-' :: r => r
    | r => r
  let ip := cs.takeWhile Char.isDigit
  let r1 := cs.dropWhile Char.isDigit
  match r1 with
  | '.' :: r =>
      let fp := r.takeWhile Char.isDigit
      let r2 := r.dropWhile Char.isDigit
      if ip.isEmpty && fp.isEmpty then none
      else match expVal r2 with
        | none => none
        | some e => some (buildRat sgn ip fp e)
  | _ =>
      if ip.isEmpty then none
      else match expVal r1 with
        | none => none
        | some e => some (buildRat sgn ip [] e)

/-- `safe_float` (helper, lines 96-103): `None` gives `0.0`; otherwise
`float(value)` is attempted and `ValueError`/`TypeError` collapse to `0.0`.
`float` of an `int` or `float` is the value itself; `float(datetime)` raises
`TypeError`. -/
def safe_float (value : Value) : ℚ :=
  match value with
  | .vnone => 0
  | .vstr s => (floatOfStr? s).getD 0
  | .vint n => (n : ℚ)
  | .vnum q => q
  | .vdate _ _ _ => 0

/-- Python `int(f)` for a float: truncation toward zero. -/
def int_trunc (q : ℚ) : Int := q.num.tdiv q.den

/-! ### `Emailer._is_critical_shading` (lines 300-313) -/

/-- `Emailer._is_critical_shading`: `None` and blank-after-strip values are
not critical; a value containing `/` is critical when the part before the
first `/` converts (via `safe_float`) to a number `< 4`; any other value is
critical when it converts to a number `≤ 4`.  `str_val.split('/')[0]` is the
prefix of the string before the first `/`, i.e. `takeWhile (· ≠ '/')`.  The
surrounding `try/except (ValueError, IndexError)` in the source can never
fire (`safe_float` does not raise and `split` is never empty). -/
def is_critical_shading (val : Value) : Bool :=
  match val with
  | .vnone => false
  | v =>
    let str_val := trimChars (pyStr v).data
    if str_val.isEmpty then false
    else if str_val.contains '/' then
      decide (safe_float (.vstr (String.mk (str_val.takeWhile (fun c => c ≠ '/')))) < 4)
    else
      decide (safe_float (.vstr (String.mk str_val)) ≤ 4)

/-! ### Classifier data model

The classifier (`Emailer._classify_report`, lines 404-419, with
`Emailer._analyze_report_data`, lines 315-382) reads six summary cells, the
four configured thresholds (`email_filter_rules.pass_report_triggers`), and
scans the visible "Page " sheets for shading values. -/

/-- The four thresholds from `email_filter_rules.pass_report_triggers`. -/
structure Triggers where
  width_shortage_tolerance_inch : ℚ
  length_shortage_percentage : ℚ
  avg_point_threshold : ℚ
  shading_percentage_threshold : ℚ

/-- The raw summary-sheet cells `_analyze_report_data` reads. -/
structure SummaryCells where
  order_width : Value
  actual_width : Value
  ticked_yards : Value
  total_short_excess : Value
  avg_point : Value
  check_roll : Value

/-- One worksheet: title, visibility state (`sheet_state`), rightmost used
column (`max_column`) and the cell grid, 1-indexed as `cell row column`. -/
structure Sheet where
  title : String
  sheet_state : String
  max_column : Nat
  cell : Nat → Nat → Value

/-- A workbook is its list of worksheets (in workbook order). -/
structure Workbook where
  sheets : List Sheet

/-- Python `range(start, stop, step)` for positive `step`. -/
def pyRange (start stop step : Nat) : List Nat :=
  (List.range ((stop - start + step - 1) / step)).map (fun i => start + step * i)

/-- The sheets scanned by both passes: title starts with `"Page "` and
`sheet_state == 'visible'`. -/
def visible_pages (wb : Workbook) : List Sheet :=
  wb.sheets.filter (fun s => strBegins s.title "Page " && (s.sheet_state == "visible"))

/-- One roll of the shading scan: columns `i..i+3` (clipped at
`max_column`; the source `break`s at the first `j > last_col`, and since `j`
increases every later `j` would also break, so clipping is equivalent), rows
15-17; the roll is critical when any such cell holds a critical shading
value. -/
def roll_is_critical (sheet : Sheet) (i : Nat) : Bool :=
  (pyRange i (i + 4) 1).any fun j =>
    decide (j ≤ sheet.max_column) &&
      (pyRange 15 18 1).any fun k => is_critical_shading (sheet.cell k j)

/-- `critical_shade_rolls` of `_analyze_report_data`: over every visible
"Page " sheet, column groups of four starting at column 2. -/
def critical_shade_rolls (wb : Workbook) : Nat :=
  ((visible_pages wb).map
    (fun s => (pyRange 2 (s.max_column + 1) 4).countP (roll_is_critical s))).sum

/-- Width-shortage condition (lines 332-337):
`actual_width > 0 and order_width > 0 and width_diff > tolerance`. -/
def width_triggers (sc : SummaryCells) (tr : Triggers) : Bool :=
  let order_width := safe_float sc.order_width
  let actual_width := safe_float sc.actual_width
  decide (0 < actual_width) && decide (0 < order_width) &&
    decide (tr.width_shortage_tolerance_inch < order_width - actual_width)

/-- Length-shortage condition (lines 340-345): positive ticked yards,
negative short/excess, and `|short_excess| / ticked_yards * 100` at least
the configured percentage. -/
def length_triggers (sc : SummaryCells) (tr : Triggers) : Bool :=
  let ticked_yards := safe_float sc.ticked_yards
  let short_excess := safe_float sc.total_short_excess
  decide (0 < ticked_yards) && decide (short_excess < 0) &&
    decide (tr.length_shortage_percentage ≤ |short_excess| / ticked_yards * 100)

/-- Average-point condition (lines 348-351): `avg_point >= threshold`. -/
def avg_triggers (sc : SummaryCells) (tr : Triggers) : Bool :=
  decide (tr.avg_point_threshold ≤ safe_float sc.avg_point)

/-- `check_roll = int(safe_float(...))` (line 329). -/
def check_roll_val (sc : SummaryCells) : Int := int_trunc (safe_float sc.check_roll)

/-- Shading condition (lines 354-374): only when `check_roll > 0`, and then
`critical_shade_rolls / check_roll * 100` at least the configured
percentage. -/
def shading_triggers (sc : SummaryCells) (wb : Workbook) (tr : Triggers) : Bool :=
  decide (0 < check_roll_val sc) &&
    decide (tr.shading_percentage_threshold ≤
      (critical_shade_rolls wb : ℚ) / (check_roll_val sc : ℚ) * 100)

/-- The `send_reason` computed by `_analyze_report_data`: `na` is the
`"N/A"` sentinel, the other constructors carry the values the reason
f-string interpolates. -/
inductive SendReason where
  | na : SendReason
  | width_shortage (tolerance : ℚ) : SendReason
  | length_shortage (percentage : ℚ) : SendReason
  | avg_point_over (avg threshold : ℚ) : SendReason
  | critical_shading (percentage : ℚ) : SendReason
deriving DecidableEq

/-- `Emailer._analyze_report_data` (lines 315-382): the four checks in
source order, each `return`ing its reason immediately (short-circuit);
`"N/A"` when none fires. -/
def analyze_report_data (sc : SummaryCells) (wb : Workbook) (tr : Triggers) : SendReason :=
  if width_triggers sc tr then .width_shortage tr.width_shortage_tolerance_inch
  else if length_triggers sc tr then .length_shortage tr.length_shortage_percentage
  else if avg_triggers sc tr then .avg_point_over (safe_float sc.avg_point) tr.avg_point_threshold
  else if shading_triggers sc wb tr then .critical_shading tr.shading_percentage_threshold
  else .na

/-- The classification decision. -/
inductive Decision where
  | SEND : Decision
  | REVIEW : Decision
deriving DecidableEq

/-- `Emailer._classify_report` (lines 404-419): lowercase the result text;
`fail`/`rejected` return SEND at once; otherwise a `pass` report is SEND
exactly when the analysis reason differs from `"N/A"`; everything else is
REVIEW. -/
def classify_report (result : String) (sc : SummaryCells) (wb : Workbook)
    (tr : Triggers) : Decision :=
  if containsSub (lowered result) "fail" || containsSub (lowered result) "rejected" then .SEND
  else if containsSub (lowered result) "pass" &&
      decide (analyze_report_data sc wb tr ≠ .na) then .SEND
  else .REVIEW

/-- A summary sheet whose relevant cells are all blank. -/
def emptySummary : SummaryCells :=
  ⟨.vnone, .vnone, .vnone, .vnone, .vnone, .vnone⟩

/-- Blank summary except for an average point of exactly 10. -/
def avgSummary : SummaryCells :=
  ⟨.vnone, .vnone, .vnone, .vnone, .vnum 10, .vnone⟩

/-- A workbook with no sheets. -/
def emptyWorkbook : Workbook := ⟨[]⟩

/-- The thresholds at the source's config defaults (`0.5`, `0.5`, `10`,
`15`). -/
def defaultTriggers : Triggers := ⟨mkRat 1 2, mkRat 1 2, 10, 15⟩


/-! ### Ledger sorting (`DataEntryHandler`, lines 139-161 and 209-218)

`_get_sorting_keys_from_file` builds the tuple
`(buyer, consignment_num, result, rolls)`; `run` then sorts the collected
records with `sorted(all_data_to_enter, key=lambda x: x['sort_keys'])`.
Python's `sorted` is a stable sort under lexicographic tuple comparison;
it is modelled by `List.mergeSort` (stable) under `keyLE`. -/

/-- The sort-key tuple: buyer, numeric consignment, result text, rolls. -/
abbrev SortKey := String × Nat × String × Int

/-- One lexicographic comparison step: equal components defer to the rest
of the tuple, unequal components decide by their own order. -/
def lexStep {α : Type} [DecidableEq α] (lt : α → α → Bool) (x y : α) (rest : Bool) : Bool :=
  if x = y then rest else lt x y

/-- Python `<=` on the 4-tuple `(str, int, str, int)`: lexicographic, with
code-point comparison on the string components. -/
def keyLE (a b : SortKey) : Bool :=
  lexStep strLt a.1 b.1
    (lexStep (fun x y => decide (x < y)) a.2.1 b.2.1
      (lexStep strLt a.2.2.1 b.2.2.1
        (decide (a.2.2.2 ≤ b.2.2.2))))

/-- One collected record: its sort key plus its payload (standing for the
`data`/`file_name` fields of the Python dict). -/
abbrev RecEntry := SortKey × String

/-- The comparison `sorted` uses: records compare by `sort_keys` only. -/
def recLE (x y : RecEntry) : Bool := keyLE x.1 y.1

/-- The batch ordering of `DataEntryHandler.run` (line 217):
`sorted(all_data_to_enter, key=lambda x: x['sort_keys'])`. -/
def pySorted (l : List RecEntry) : List RecEntry := List.mergeSort l recLE

/-- `consignment_num` of `_get_sorting_keys_from_file` (lines 147-151):
concatenate every digit run of the consignment text
(`''.join(re.findall(r'\d+', v))`, i.e. keep the digit characters in
order) and read the result as an integer; `0` when there are no digits. -/
def consignment_sort_num (consignment_val : String) : Nat :=
  let ds := consignment_val.data.filter Char.isDigit
  if ds.isEmpty then 0 else digitsVal ds

/-- `_get_sorting_keys_from_file` on the four raw cell values:
`buyer`/`consignment`/`result` via `str(v or '').strip()`,
`rolls = int(safe_float(v))`. -/
def get_sorting_keys (buyer consignment result rolls : Value) : SortKey :=
  (pyStrip (pyStrOr buyer),
   consignment_sort_num (pyStrip (pyStrOr consignment)),
   pyStrip (pyStrOr result),
   int_trunc (safe_float rolls))

/-- The three example records of the spec (payloads name the files). -/
def recA : RecEntry := (("BuyerA", 2, "Pass", 10), "fileA")

def recB : RecEntry := (("BuyerA", 1, "Fail", 5), "fileB")

def recC : RecEntry := (("BuyerB", 1, "Pass", 1), "fileC")

/-! ### File organizer (`FileOrganizer`, lines 533-631) -/

/-- The characters `_clean_name` deletes: `\ / * ? : " < > |`. -/
def forbiddenChars : List Char := ['\\', '/', '*', '?', ':', '\x22', '<', '>', '|']

/-- `FileOrganizer._clean_name` (lines 543-546) applied after the
`str(name or '')` coercion: strip, then delete the forbidden characters
(`re.sub(r'[\\/*?:"<>|]', '', name_str)` replaces them with nothing). -/
def cleanStr (s : String) : String :=
  String.mk ((trimChars s.data).filter (fun c => !forbiddenChars.contains c))

/-- `_clean_name` on a raw cell value. -/
def clean_name (v : Value) : String := cleanStr (pyStrOr v)

/-- `FileOrganizer._format_date` (lines 548-555): a `datetime` formats as
`strftime("(%d-%m-%y)")` (zero-padded day, month, two-digit year).  For
other values the source first tries `pd.to_datetime` (an external-library
parse, not modelled here) and on failure falls back to
`f"({self._clean_name(date_value)})"`; the model uses that fallback. -/
def format_date (v : Value) : String :=
  match v with
  | .vdate y m d => "(" ++ pad2 d ++ "-" ++ pad2 m ++ "-" ++ pad2 (y % 100) ++ ")"
  | _ => "(" ++ clean_name v ++ ")"

/-- The cells `FileOrganizer.run` reads through `cell_map_organization`. -/
structure OrgCells where
  buyer : Value
  supplier : Value
  style : Value
  color : Value
  fabric_code : Value
  consignment : Value
  rolls : Value
  date : Value

/-- Where one report file ends up: either moved to
`output_dir / buyer / folder / filename`, or moved to the error directory
(the `except` path of `FileOrganizer.run`). -/
inductive OrgOutcome where
  | moved (buyer folder filename : String) : OrgOutcome
  | toError : OrgOutcome
deriving DecidableEq

/-- The per-file body of `FileOrganizer.run` (lines 592-618): clean every
mapped cell; format the date; recompute consignment and rolls as
`_clean_name(int(safe_float(v)))` (in the model `int(safe_float(·))` never
raises, so the `except` fallback to the raw value is dead); raise — i.e.
route to the error directory — when buyer, supplier or consignment is empty
after sanitization; otherwise build
`CON-<consignment> <date>` and `<style>, COLOR-<color>, Roll-<rolls>,
<fabric_code><ext>`.  The destination folder is only created after the
check, so an error report touches nothing under the output tree. -/
def organize_file (c : OrgCells) (ext : String) : OrgOutcome :=
  let buyer := clean_name c.buyer
  let supplier := clean_name c.supplier
  let style := clean_name c.style
  let color := clean_name c.color
  let fabric_code := clean_name c.fabric_code
  let date := format_date c.date
  let consignment := clean_name (.vint (int_trunc (safe_float c.consignment)))
  let rolls := clean_name (.vint (int_trunc (safe_float c.rolls)))
  if buyer = "" ∨ supplier = "" ∨ consignment = "" then .toError
  else
    .moved buyer ("CON-" ++ consignment ++ " " ++ date)
      (style ++ ", COLOR-" ++ color ++ ", Roll-" ++ rolls ++ ", " ++ fabric_code ++ ext)

/-- The concrete report of the filing example (buyer `"Acme/Co"`,
consignment `"12"`, style `"S1"`, color `"Red"`, rolls `"20"`, fabric code
`"FC1"`, date 2024-05-01), parameterised by the supplier cell, which the
example leaves unspecified. -/
def acmeCellsWith (supplier : Value) : OrgCells :=
  { buyer := .vstr "Acme/Co"
  , supplier := supplier
  , style := .vstr "S1"
  , color := .vstr "Red"
  , fabric_code := .vstr "FC1"
  , consignment := .vstr "12"
  , rolls := .vstr "20"
  , date := .vdate 2024 5 1 }

/-- The filing example with a concrete nonempty supplier. -/
def acmeCells : OrgCells := acmeCellsWith (.vstr "TexSup")

/-- A report with a blank buyer cell (and everything else present). -/
def noBuyerCells : OrgCells :=
  { buyer := .vnone
  , supplier := .vstr "TexSup"
  , style := .vstr "S1"
  , color := .vstr "Red"
  , fabric_code := .vstr "FC1"
  , consignment := .vstr "12"
  , rolls := .vstr "20"
  , date := .vdate 2024 5 1 }

/-! ### Defect-grid extraction (`DataEntryHandler._extract_data_for_entry`,
lines 173-193) -/

/-- The scanned rows: `range(23, 39)`, i.e. 23-38. -/
def grid_rows : List Nat := pyRange 23 39 1

/-- The scanned columns: `V` (22) through `AO` (41),
`range(column_index_from_string('V'), column_index_from_string('AO') + 1)`. -/
def grid_cols : List Nat := pyRange 22 42 1

/-- The row label: `str(sheet[f'A{row}'].value or '').strip()`. -/
def row_label (s : Sheet) (r : Nat) : String := pyStrip (pyStrOr (s.cell r 1))

/-- The row sum: `sum(safe_float(cell) for col in V..AO)`. -/
def row_points (s : Sheet) (r : Nat) : ℚ :=
  (grid_cols.map (fun c => safe_float (s.cell r c))).sum

/-- The normalized defect dictionary lookup:
`{k.lower().strip(): v for k, v in defect_mapping.items()}.get(key)`.
A Python dict comprehension keeps the LAST entry for a duplicated
normalized key, hence the lookup over the reversed list. -/
def normalized_lookup (mapping : List (String × String)) (key : String) : Option String :=
  ((mapping.map (fun p => (lowered (pyStrip p.1), p.2))).reverse.find?
    (fun p => p.1 = key)).map (fun p => p.2)

/-- Accumulated defect points: per-target-column totals and the unmatched
bucket (`unmatched_defect_points`). -/
structure DefectTotals where
  points : String → ℚ
  unmatched : ℚ

/-- All (sheet, row) pairs the grid scan visits, in visit order: every
visible "Page " sheet, rows 23-38. -/
def defect_scan_rows (wb : Workbook) : List (Sheet × Nat) :=
  (visible_pages wb).flatMap (fun s => grid_rows.map (fun r => (s, r)))

/-- One iteration of the scan loop: blank labels are skipped (`continue`);
otherwise the row sum accumulates under the matched target column, or into
the unmatched bucket.  The source's `if target_col:` (line 186) is a Python
truthiness test on `dict.get`'s result: a missing key (`None`) and a
present key mapped to the empty string are both falsy, so either way the
row sum accumulates into `unmatched_defect_points`. -/
def defect_step (mapping : List (String × String)) (acc : DefectTotals)
    (sr : Sheet × Nat) : DefectTotals :=
  let label := row_label sr.1 sr.2
  if label = "" then acc
  else
    let s := row_points sr.1 sr.2
    match normalized_lookup mapping (lowered label) with
    | some col =>
        if col = "" then { points := acc.points, unmatched := acc.unmatched + s }
        else
          { points := fun c => if c = col then acc.points c + s else acc.points c
          , unmatched := acc.unmatched }
    | none => { points := acc.points, unmatched := acc.unmatched + s }

/-- The grid scan of `_extract_data_for_entry`: fold the loop body over the
visited (sheet, row) pairs, starting from all-zero accumulators
(`defect_points = {col: 0 ...}`, `unmatched_defect_points = 0`). -/
def extract_defect_points (mapping : List (String × String)) (wb : Workbook) : DefectTotals :=
  (defect_scan_rows wb).foldl (defect_step mapping) ⟨fun _ => 0, 0⟩

/-- The labelled rows of the scan (non-blank column-A label). -/
def labelled_rows (wb : Workbook) : List (Sheet × Nat) :=
  (defect_scan_rows wb).filter (fun sr => row_label sr.1 sr.2 ≠ "")

/-- Modelled from the spec: the total for one defect category is "the sum
of the numeric values across the region" over every labelled row "the label
maps to (case-insensitive, trimmed match against a configured
dictionary)". -/
def spec_category_total (mapping : List (String × String)) (wb : Workbook)
    (col : String) : ℚ :=
  (((labelled_rows wb).filter
      (fun sr => normalized_lookup mapping (lowered (row_label sr.1 sr.2)) = some col)).map
    (fun sr => row_points sr.1 sr.2)).sum

/-- Modelled from the spec: "unmatched labels accumulate into a single
unmatched bucket". -/
def spec_unmatched_total (mapping : List (String × String)) (wb : Workbook) : ℚ :=
  (((labelled_rows wb).filter
      (fun sr => normalized_lookup mapping (lowered (row_label sr.1 sr.2)) = none)).map
    (fun sr => row_points sr.1 sr.2)).sum

/-! ### Order lemmas for the sort comparison -/

theorem charListLt_irrefl : ∀ l, charListLt l l = false := by
  intro l
  induction l with
  | nil => rfl
  | cons a t ih => simp [charListLt, ih]

theorem charListLt_trans :
    ∀ a b c, charListLt a b = true → charListLt b c = true → charListLt a c = true := by
  intro a
  induction a with
  | nil =>
    intro b c h1 h2
    cases b with
    | nil => simp [charListLt] at h1
    | cons y ys =>
      cases c with
      | nil => simp [charListLt] at h2
      | cons z zs => simp [charListLt]
  | cons x xs ih =>
    intro b c h1 h2
    cases b with
    | nil => simp [charListLt] at h1
    | cons y ys =>
      cases c with
      | nil => simp [charListLt] at h2
      | cons z zs =>
        simp only [charListLt, Bool.or_eq_true, Bool.and_eq_true, decide_eq_true_eq] at h1 h2 ⊢
        rcases h1 with h1 | ⟨hxy, h1⟩
        · rcases h2 with h2 | ⟨hyz, h2⟩
          · exact Or.inl (lt_trans h1 h2)
          · exact Or.inl (hyz ▸ h1)
        · rcases h2 with h2 | ⟨hyz, h2⟩
          · exact Or.inl (hxy ▸ h2)
          · exact Or.inr ⟨hxy.trans hyz, ih ys zs h1 h2⟩

theorem charListLt_connex :
    ∀ a b, a ≠ b → charListLt a b = true ∨ charListLt b a = true := by
  intro a
  induction a with
  | nil =>
    intro b hne
    cases b with
    | nil => exact absurd rfl hne
    | cons y ys => exact Or.inl rfl
  | cons x xs ih =>
    intro b hne
    cases b with
    | nil => exact Or.inr rfl
    | cons y ys =>
      simp only [charListLt, Bool.or_eq_true, Bool.and_eq_true, decide_eq_true_eq]
      rcases lt_trichotomy x y with h | h | h
      · exact Or.inl (Or.inl h)
      · subst h
        have hxs : xs ≠ ys := by
          intro hE; exact hne (by rw [hE])
        rcases ih ys hxs with h | h
        · exact Or.inl (Or.inr ⟨rfl, h⟩)
        · exact Or.inr (Or.inr ⟨rfl, h⟩)
      · exact Or.inr (Or.inl h)

theorem strLt_irrefl (a : String) : strLt a a = false := charListLt_irrefl _

theorem strLt_trans {a b c : String} (h1 : strLt a b = true) (h2 : strLt b c = true) :
    strLt a c = true := charListLt_trans _ _ _ h1 h2

theorem strLt_connex {a b : String} (h : a ≠ b) : strLt a b = true ∨ strLt b a = true :=
  charListLt_connex _ _ (fun hd => h (String.ext hd))

theorem lexStep_trans {α : Type} [DecidableEq α] {lt : α → α → Bool}
    (ltt : ∀ x y z : α, lt x y = true → lt y z = true → lt x z = true)
    (lti : ∀ x : α, lt x x = false)
    {x y z : α} {r s t : Bool} (hrst : r = true → s = true → t = true)
    (h1 : lexStep lt x y r = true) (h2 : lexStep lt y z s = true) :
    lexStep lt x z t = true := by
  by_cases hxy : x = y
  · subst hxy
    by_cases hyz : x = z
    · subst hyz
      simp only [lexStep, if_pos rfl] at h1 h2 ⊢
      exact hrst h1 h2
    · simp only [lexStep, if_pos rfl] at h1
      simpa only [lexStep, if_neg hyz] using h2
  · by_cases hyz : y = z
    · subst hyz
      simpa only [lexStep, if_neg hxy] using h1
    · simp only [lexStep, if_neg hxy] at h1
      simp only [lexStep, if_neg hyz] at h2
      have hxz : x ≠ z := by
        intro hE
        subst hE
        exact absurd (ltt _ _ _ h1 h2) (by simp [lti])
      simp only [lexStep, if_neg hxz]
      exact ltt _ _ _ h1 h2

theorem lexStep_total {α : Type} [DecidableEq α] {lt : α → α → Bool}
    (ltc : ∀ x y : α, x ≠ y → lt x y = true ∨ lt y x = true)
    {x y : α} {r s : Bool} (hrs : r = true ∨ s = true) :
    lexStep lt x y r = true ∨ lexStep lt y x s = true := by
  by_cases hxy : x = y
  · subst hxy
    simpa only [lexStep, if_pos rfl] using hrs
  · have hyx : y ≠ x := fun hE => hxy hE.symm
    simp only [lexStep, if_neg hxy, if_neg hyx]
    exact ltc _ _ hxy

theorem natLt_connex : ∀ x y : Nat, x ≠ y → decide (x < y) = true ∨ decide (y < x) = true := by
  intro x y h
  rcases Nat.lt_or_ge x y with hlt | hge
  · exact Or.inl (by simpa using hlt)
  · exact Or.inr (by simp [Nat.lt_of_le_of_ne hge (fun hE => h hE.symm)])

theorem keyLE_trans : ∀ a b c : SortKey, keyLE a b = true → keyLE b c = true → keyLE a c = true := by
  intro a b c h1 h2
  unfold keyLE at h1 h2 ⊢
  refine @lexStep_trans String _ strLt (fun x y z hx hy => strLt_trans hx hy)
    strLt_irrefl _ _ _ _ _ _ ?_ h1 h2
  intro p1 p2
  refine @lexStep_trans Nat _ (fun x y => decide (x < y)) (fun x y z hx hy => by
      simp only [decide_eq_true_eq] at hx hy ⊢; omega)
    (fun x => by simp) _ _ _ _ _ _ ?_ p1 p2
  intro q1 q2
  refine @lexStep_trans String _ strLt (fun x y z hx hy => strLt_trans hx hy)
    strLt_irrefl _ _ _ _ _ _ ?_ q1 q2
  intro u1 u2
  simp only [decide_eq_true_eq] at u1 u2 ⊢
  omega

theorem keyLE_total : ∀ a b : SortKey, keyLE a b = true ∨ keyLE b a = true := by
  intro a b
  unfold keyLE
  refine @lexStep_total String _ strLt (fun x y hxy => strLt_connex hxy) _ _ _ _ ?_
  refine @lexStep_total Nat _ _ natLt_connex _ _ _ _ ?_
  refine @lexStep_total String _ strLt (fun x y hxy => strLt_connex hxy) _ _ _ _ ?_
  simp only [decide_eq_true_eq]
  omega

theorem recLE_trans :
    ∀ x y z : RecEntry, recLE x y = true → recLE y z = true → recLE x z = true :=
  fun _ _ _ h1 h2 => keyLE_trans _ _ _ h1 h2

theorem recLE_total : ∀ x y : RecEntry, recLE x y || recLE y x := by
  intro x y
  rcases keyLE_total x.1 y.1 with h | h <;> simp [recLE, h]

/-! ### Claim theorems -/

/-- C2: on the four reference inputs the shading predicate gives
`"3/5"` critical, `"4/5"` not, `"4"` critical, `"5"` not; and in general a
slash-delimited value compares the part before the slash strictly (`< 4`)
while a bare value compares the whole value non-strictly (`≤ 4`). -/
theorem shading_asymmetry :
    (is_critical_shading (.vstr "3/5") = true ∧
     is_critical_shading (.vstr "4/5") = false ∧
     is_critical_shading (.vstr "4") = true ∧
     is_critical_shading (.vstr "5") = false) ∧
    (∀ s : String, trimChars s.data ≠ [] → (trimChars s.data).contains '/' = true →
      (is_critical_shading (.vstr s) = true ↔
        safe_float (.vstr (String.mk ((trimChars s.data).takeWhile (fun c => c ≠ '/')))) < 4)) ∧
    (∀ s : String, trimChars s.data ≠ [] → (trimChars s.data).contains '/' = false →
      (is_critical_shading (.vstr s) = true ↔
        safe_float (.vstr (String.mk (trimChars s.data))) ≤ 4)) := by
  refine ⟨by decide, ?_, ?_⟩
  · intro s h1 h2
    have hm : '/' ∈ trimChars s.data := by
      simpa [List.contains, List.elem_eq_mem] using h2
    simp [is_critical_shading, pyStr, h1, hm]
  · intro s h1 h2
    have hm : '/' ∉ trimChars s.data := by
      simpa [List.contains, List.elem_eq_mem] using h2
    simp [is_critical_shading, pyStr, h1, hm]

/-- Witness for C2: the slash case at `"3/5"`, the bare case at `"4"`. -/
theorem shading_asymmetry_witness :
    (is_critical_shading (.vstr "3/5") = true ↔
      safe_float (.vstr (String.mk ((trimChars "3/5".data).takeWhile (fun c => c ≠ '/')))) < 4) ∧
    (is_critical_shading (.vstr "4") = true ↔
      safe_float (.vstr (String.mk (trimChars "4".data))) ≤ 4) :=
  ⟨shading_asymmetry.2.1 "3/5" (by decide) (by decide),
   shading_asymmetry.2.2 "4" (by decide) (by decide)⟩

/-- C4: `safe_float` is a total function; `None`, datetimes and strings
`float` cannot parse (the empty string among them) give `0.0`, while ints,
floats and parseable strings give exactly their numeric value. -/
theorem safe_float_spec :
    safe_float .vnone = 0 ∧
    (∀ y m d, safe_float (.vdate y m d) = 0) ∧
    (∀ n : Int, safe_float (.vint n) = (n : ℚ)) ∧
    (∀ q : ℚ, safe_float (.vnum q) = q) ∧
    floatOfStr? "" = none ∧
    (∀ s, floatOfStr? s = none → safe_float (.vstr s) = 0) ∧
    (∀ s q, floatOfStr? s = some q → safe_float (.vstr s) = q) := by
  refine ⟨rfl, fun _ _ _ => rfl, fun _ => rfl, fun _ => rfl, by decide, ?_, ?_⟩
  · intro s h
    simp [safe_float, h]
  · intro s q h
    simp [safe_float, h]

/-- Witness for C4: the unparseable string `"abc"` coerces to `0` and the
parseable string `"3.5"` coerces to exactly `7/2`. -/
theorem safe_float_spec_witness :
    (floatOfStr? "abc" = none ∧ safe_float (.vstr "abc") = 0) ∧
    (floatOfStr? "3.5" = some (mkRat 7 2) ∧ safe_float (.vstr "3.5") = mkRat 7 2) :=
  ⟨⟨by decide, safe_float_spec.2.2.2.2.2.1 "abc" (by decide)⟩,
   ⟨by decide, safe_float_spec.2.2.2.2.2.2 "3.5" (mkRat 7 2) (by decide)⟩⟩

/-- C9: a non-blank value whose relevant part (the whole trimmed value, or
the part before the slash) does not parse as a number is critical, because
the failed coercion yields `0.0`, which satisfies both comparisons; `None`
and whitespace-only strings are never critical. -/
theorem unparseable_shading_critical :
    is_critical_shading .vnone = false ∧
    (∀ s : String, trimChars s.data = [] → is_critical_shading (.vstr s) = false) ∧
    (∀ s : String, trimChars s.data ≠ [] → (trimChars s.data).contains '/' = false →
      floatOfStr? (String.mk (trimChars s.data)) = none →
      is_critical_shading (.vstr s) = true) ∧
    (∀ s : String, trimChars s.data ≠ [] → (trimChars s.data).contains '/' = true →
      floatOfStr? (String.mk ((trimChars s.data).takeWhile (fun c => c ≠ '/'))) = none →
      is_critical_shading (.vstr s) = true) := by
  refine ⟨rfl, ?_, ?_, ?_⟩
  · intro s h1
    simp [is_critical_shading, pyStr, h1]
  · intro s h1 h2 h3
    have hm : '/' ∉ trimChars s.data := by
      simpa [List.contains, List.elem_eq_mem] using h2
    simp [is_critical_shading, pyStr, h1, hm, safe_float, h3]
  · intro s h1 h2 h3
    have hm : '/' ∈ trimChars s.data := by
      simpa [List.contains, List.elem_eq_mem] using h2
    simp only [ne_eq, decide_not] at h3
    simp [is_critical_shading, pyStr, h1, hm, safe_float, h3]

/-- Witness for C9: the bare unparseable `"abc"` and the slash value
`"x/5"` with unparseable first part are both critical. -/
theorem unparseable_shading_critical_witness :
    is_critical_shading (.vstr "abc") = true ∧ is_critical_shading (.vstr "x/5") = true :=
  ⟨unparseable_shading_critical.2.2.1 "abc" (by decide) (by decide) (by decide),
   unparseable_shading_critical.2.2.2 "x/5" (by decide) (by decide) (by decide)⟩

/-- C1: the classifier is total and deterministic: every report yields
exactly one of SEND and REVIEW; a result text containing "fail" or
"rejected" is SEND immediately; otherwise SEND holds exactly for "pass"
texts whose analysis reason differs from N/A (texts matching neither
family fall to REVIEW); and the analysis reason is determined by the four
checks in the fixed order width, length, average point, shading, with
short-circuit on the first that triggers. -/
theorem classify_report_spec :
    ∀ (result : String) (sc : SummaryCells) (wb : Workbook) (tr : Triggers),
    ((classify_report result sc wb tr = .SEND ∧ classify_report result sc wb tr ≠ .REVIEW) ∨
     (classify_report result sc wb tr = .REVIEW ∧ classify_report result sc wb tr ≠ .SEND)) ∧
    (containsSub (lowered result) "fail" = true ∨ containsSub (lowered result) "rejected" = true →
      classify_report result sc wb tr = .SEND) ∧
    (containsSub (lowered result) "fail" = false →
      containsSub (lowered result) "rejected" = false →
      (classify_report result sc wb tr = .SEND ↔
        containsSub (lowered result) "pass" = true ∧ analyze_report_data sc wb tr ≠ .na)) ∧
    (containsSub (lowered result) "fail" = false →
      containsSub (lowered result) "rejected" = false →
      containsSub (lowered result) "pass" = false →
      classify_report result sc wb tr = .REVIEW) ∧
    (analyze_report_data sc wb tr = .width_shortage tr.width_shortage_tolerance_inch ↔
      width_triggers sc tr = true) ∧
    (analyze_report_data sc wb tr = .length_shortage tr.length_shortage_percentage ↔
      width_triggers sc tr = false ∧ length_triggers sc tr = true) ∧
    (analyze_report_data sc wb tr =
        .avg_point_over (safe_float sc.avg_point) tr.avg_point_threshold ↔
      width_triggers sc tr = false ∧ length_triggers sc tr = false ∧
      avg_triggers sc tr = true) ∧
    (analyze_report_data sc wb tr = .critical_shading tr.shading_percentage_threshold ↔
      width_triggers sc tr = false ∧ length_triggers sc tr = false ∧
      avg_triggers sc tr = false ∧ shading_triggers sc wb tr = true) ∧
    (analyze_report_data sc wb tr = .na ↔
      width_triggers sc tr = false ∧ length_triggers sc tr = false ∧
      avg_triggers sc tr = false ∧ shading_triggers sc wb tr = false) := by
  intro result sc wb tr
  have hAna :
      (analyze_report_data sc wb tr = .width_shortage tr.width_shortage_tolerance_inch ↔
        width_triggers sc tr = true) ∧
      (analyze_report_data sc wb tr = .length_shortage tr.length_shortage_percentage ↔
        width_triggers sc tr = false ∧ length_triggers sc tr = true) ∧
      (analyze_report_data sc wb tr =
          .avg_point_over (safe_float sc.avg_point) tr.avg_point_threshold ↔
        width_triggers sc tr = false ∧ length_triggers sc tr = false ∧
        avg_triggers sc tr = true) ∧
      (analyze_report_data sc wb tr = .critical_shading tr.shading_percentage_threshold ↔
        width_triggers sc tr = false ∧ length_triggers sc tr = false ∧
        avg_triggers sc tr = false ∧ shading_triggers sc wb tr = true) ∧
      (analyze_report_data sc wb tr = .na ↔
        width_triggers sc tr = false ∧ length_triggers sc tr = false ∧
        avg_triggers sc tr = false ∧ shading_triggers sc wb tr = false) := by
    cases hw : width_triggers sc tr <;> cases hl : length_triggers sc tr <;>
      cases ha : avg_triggers sc tr <;> cases hs : shading_triggers sc wb tr <;>
        simp [analyze_report_data, hw, hl, ha, hs]
  refine ⟨?_, ?_, ?_, ?_, hAna.1, hAna.2.1, hAna.2.2.1, hAna.2.2.2.1, hAna.2.2.2.2⟩
  · cases h : classify_report result sc wb tr <;> simp [h]
  · intro h
    rcases h with h | h <;> simp [classify_report, h]
  · intro hf hr
    by_cases hna : analyze_report_data sc wb tr = .na <;>
      cases hp : containsSub (lowered result) "pass" <;>
        simp [classify_report, hf, hr, hp, hna]
  · intro hf hr hp
    simp [classify_report, hf, hr, hp]

/-- Witness for C1: a "fail" result is SEND at once, and for a "Passed"
result the SEND decision is equivalent to a non-N/A analysis. -/
theorem classify_report_spec_witness :
    classify_report "fail" emptySummary emptyWorkbook defaultTriggers = .SEND ∧
    (classify_report "Passed" emptySummary emptyWorkbook defaultTriggers = .SEND ↔
      containsSub (lowered "Passed") "pass" = true ∧
      analyze_report_data emptySummary emptyWorkbook defaultTriggers ≠ .na) :=
  ⟨(classify_report_spec "fail" emptySummary emptyWorkbook defaultTriggers).2.1
      (Or.inl (by decide)),
   (classify_report_spec "Passed" emptySummary emptyWorkbook defaultTriggers).2.2.1
      (by decide) (by decide)⟩

/-- C3: for a "pass" report that passes the width and length checks
without triggering them, an average point at or above the configured
threshold — equality included — forces SEND, with the analysis reason
carrying the average and the threshold it met. -/
theorem avg_point_boundary :
    ∀ (result : String) (sc : SummaryCells) (wb : Workbook) (tr : Triggers),
    containsSub (lowered result) "pass" = true →
    width_triggers sc tr = false →
    length_triggers sc tr = false →
    tr.avg_point_threshold ≤ safe_float sc.avg_point →
    classify_report result sc wb tr = .SEND ∧
    analyze_report_data sc wb tr =
      .avg_point_over (safe_float sc.avg_point) tr.avg_point_threshold := by
  intro result sc wb tr hp hw hl havg
  have ha : avg_triggers sc tr = true := by
    simp [avg_triggers, havg]
  have hana : analyze_report_data sc wb tr =
      .avg_point_over (safe_float sc.avg_point) tr.avg_point_threshold := by
    simp [analyze_report_data, hw, hl, ha]
  refine ⟨?_, hana⟩
  by_cases hfr : containsSub (lowered result) "fail" = true ∨
      containsSub (lowered result) "rejected" = true
  · rcases hfr with h | h <;> simp [classify_report, h]
  · have hf : containsSub (lowered result) "fail" = false := by
      rcases Bool.eq_false_or_eq_true (containsSub (lowered result) "fail") with h | h
      · exact absurd (Or.inl h) hfr
      · exact h
    have hr : containsSub (lowered result) "rejected" = false := by
      rcases Bool.eq_false_or_eq_true (containsSub (lowered result) "rejected") with h | h
      · exact absurd (Or.inr h) hfr
      · exact h
    simp [classify_report, hf, hr, hp, hana]

/-- Witness for C3: average point exactly 10 against threshold 10 (the
boundary) on an otherwise blank report gives SEND with the average-point
reason. -/
theorem avg_point_boundary_witness :
    classify_report "pass" avgSummary emptyWorkbook defaultTriggers = .SEND ∧
    analyze_report_data avgSummary emptyWorkbook defaultTriggers =
      .avg_point_over (safe_float avgSummary.avg_point) defaultTriggers.avg_point_threshold :=
  avg_point_boundary "pass" avgSummary emptyWorkbook defaultTriggers
    (by decide) (by decide) (by decide) (by decide)

/-- C10: classification is case-insensitive in the result text (it depends
only on the lowercased text), and the fail/rejected test takes precedence:
any result whose lowercase form contains "fail" or "rejected" is SEND for
every summary, workbook and threshold set, so the four threshold checks
cannot influence it — in particular a text containing both "pass" and
"fail" is SEND. -/
theorem classify_case_insensitive :
    (∀ (r r' : String) (sc : SummaryCells) (wb : Workbook) (tr : Triggers),
      pyLower r.data = pyLower r'.data →
      classify_report r sc wb tr = classify_report r' sc wb tr) ∧
    (∀ (r : String) (sc : SummaryCells) (wb : Workbook) (tr : Triggers),
      containsSub (lowered r) "fail" = true ∨ containsSub (lowered r) "rejected" = true →
      classify_report r sc wb tr = .SEND) := by
  constructor
  · intro r r' sc wb tr h
    simp only [classify_report, lowered, h]
  · intro r sc wb tr h
    rcases h with h | h <;> simp [classify_report, h]

/-- Witness for C10: `"FAIL"` classifies like `"fail"`, and a text holding
both "PASS" and "FAIL" is SEND. -/
theorem classify_case_insensitive_witness :
    classify_report "FAIL" emptySummary emptyWorkbook defaultTriggers =
      classify_report "fail" emptySummary emptyWorkbook defaultTriggers ∧
    classify_report "PASS but FAIL" emptySummary emptyWorkbook defaultTriggers = .SEND :=
  ⟨classify_case_insensitive.1 "FAIL" "fail" emptySummary emptyWorkbook defaultTriggers
      (by decide),
   classify_case_insensitive.2 "PASS but FAIL" emptySummary emptyWorkbook defaultTriggers
      (Or.inl (by decide))⟩

/-- C5: the batch ordering is a pure, total, stable ascending sort on the
composite key (buyer, numeric consignment, result, roll count): on the
spec's three example records the output order is B, A, C; in general the
output is pairwise ordered under the tuple comparison, is a permutation of
the input, and every key-ordered subsequence of the input survives in the
output (stability: records with equal keys keep encounter order). -/
theorem ledger_sort_spec :
    pySorted [recA, recB, recC] = [recB, recA, recC] ∧
    (∀ l : List RecEntry, (pySorted l).Pairwise (fun x y => recLE x y = true)) ∧
    (∀ l : List RecEntry, (pySorted l).Perm l) ∧
    (∀ (l c : List RecEntry), c.Pairwise (fun x y => recLE x y = true) →
      c.Sublist l → c.Sublist (pySorted l)) := by
  refine ⟨?_, ?_, ?_, ?_⟩
  · have h1 : recLE recA recB = false := by decide
    have h2 : recLE recB recC = true := by decide
    have h3 : recLE recA recC = true := by decide
    simp [pySorted, List.mergeSort, List.splitInTwo, List.splitAt, List.splitAt.go,
      List.merge, h1, h2, h3]
  · intro l
    exact List.sorted_mergeSort recLE_trans recLE_total l
  · intro l
    exact List.mergeSort_perm l recLE
  · intro l c hc hs
    exact List.sublist_mergeSort recLE_trans recLE_total hc hs

/-- Witness for C5 (stability part): the key-ordered subsequence B, C of
the example input is still a subsequence of the sorted output. -/
theorem ledger_sort_spec_witness :
    [recB, recC].Sublist (pySorted [recA, recB, recC]) :=
  ledger_sort_spec.2.2.2 [recA, recB, recC] [recB, recC]
    (by decide) (List.Sublist.cons recA (List.Sublist.refl [recB, recC]))

/-- C6 counterexample: on the example report `_clean_name` deletes the
slash of `"Acme/Co"` (the sanitizer removes the forbidden characters, it
does not replace them with spaces), so the buyer folder is `"AcmeCo"` and
the claimed path with buyer folder `"Acme Co"` is not produced. -/
theorem filer_path_counterexample :
    organize_file acmeCells ".xlsx" =
      .moved "AcmeCo" "CON-12 (01-05-24)" "S1, COLOR-Red, Roll-20, FC1.xlsx" ∧
    organize_file acmeCells ".xlsx" ≠
      .moved "Acme Co" "CON-12 (01-05-24)" "S1, COLOR-Red, Roll-20, FC1.xlsx" := by
  constructor <;> decide

/-- C6 amended: the example report, with any supplier cell that stays
nonempty after sanitization, files to destination
`AcmeCo/CON-12 (01-05-24)/S1, COLOR-Red, Roll-20, FC1.xlsx` under the
output root: every interpolated component is sanitized by deleting the
characters backslash, slash, `*`, `?`, `:`, double quote, `<`, `>`, `|`. -/
theorem filer_path_amended :
    ∀ supplier : Value, clean_name supplier ≠ "" →
    organize_file (acmeCellsWith supplier) ".xlsx" =
      .moved "AcmeCo" "CON-12 (01-05-24)" "S1, COLOR-Red, Roll-20, FC1.xlsx" := by
  intro supplier hs
  have h1 : clean_name (Value.vstr "Acme/Co") = "AcmeCo" := by decide
  have h2 : clean_name (Value.vint (int_trunc (safe_float (Value.vstr "12")))) = "12" := by
    decide
  have h3 : format_date (Value.vdate 2024 5 1) = "(01-05-24)" := by decide
  have h4 : clean_name (Value.vstr "S1") = "S1" := by decide
  have h5 : clean_name (Value.vstr "Red") = "Red" := by decide
  have h6 : clean_name (Value.vstr "FC1") = "FC1" := by decide
  have h7 : clean_name (Value.vint (int_trunc (safe_float (Value.vstr "20")))) = "20" := by
    decide
  simp [organize_file, acmeCellsWith, h1, h2, h3, h4, h5, h6, h7, hs]

/-- Witness for C6: the amended path at the concrete supplier "TexSup". -/
theorem filer_path_amended_witness :
    organize_file (acmeCellsWith (.vstr "TexSup")) ".xlsx" =
      .moved "AcmeCo" "CON-12 (01-05-24)" "S1, COLOR-Red, Roll-20, FC1.xlsx" :=
  filer_path_amended (.vstr "TexSup") (by decide)

/-- C7: a report whose buyer, supplier, or recomputed consignment is empty
after sanitization is routed to the error directory, and no destination
under the buyer/consignment tree is produced for it. -/
theorem organizer_missing_fields :
    ∀ (c : OrgCells) (ext : String),
    clean_name c.buyer = "" ∨ clean_name c.supplier = "" ∨
      clean_name (.vint (int_trunc (safe_float c.consignment))) = "" →
    organize_file c ext = .toError ∧
    ∀ b f n, organize_file c ext ≠ .moved b f n := by
  intro c ext h
  have hE : organize_file c ext = .toError := by
    simp [organize_file, h]
  refine ⟨hE, fun b f n hEq => ?_⟩
  rw [hE] at hEq
  cases hEq

/-- Witness for C7: the report with a blank buyer cell goes to the error
directory. -/
theorem organizer_missing_fields_witness :
    organize_file noBuyerCells ".xlsx" = .toError :=
  (organizer_missing_fields noBuyerCells ".xlsx" (Or.inl (by decide))).1

/-- Helper for C8: a successful normalized lookup returns a value of some
dictionary entry. -/
theorem normalized_lookup_mem {mapping : List (String × String)} {key col : String}
    (h : normalized_lookup mapping key = some col) : ∃ p ∈ mapping, p.2 = col := by
  unfold normalized_lookup at h
  rcases Option.map_eq_some'.mp h with ⟨p, hfind, hsnd⟩
  have hmem := List.mem_of_find?_eq_some hfind
  rw [List.mem_reverse] at hmem
  rcases List.mem_map.mp hmem with ⟨q, hq, hEq⟩
  refine ⟨q, hq, ?_⟩
  rw [← hsnd, ← hEq]

/-- Helper for C8: the per-category total of the scan fold, for any visited
list and any starting accumulator, when every configured target column is
nonempty (so the truthiness test of line 186 never demotes a match). -/
theorem defect_fold_points (mapping : List (String × String))
    (hm : ∀ p ∈ mapping, p.2 ≠ "") :
    ∀ (l : List (Sheet × Nat)) (acc : DefectTotals) (col : String),
    (l.foldl (defect_step mapping) acc).points col =
      acc.points col +
        (((l.filter (fun sr => row_label sr.1 sr.2 ≠ "")).filter
            (fun sr =>
              normalized_lookup mapping (lowered (row_label sr.1 sr.2)) = some col)).map
          (fun sr => row_points sr.1 sr.2)).sum := by
  intro l
  induction l with
  | nil => intro acc col; simp
  | cons sr t ih =>
    intro acc col
    simp only [List.foldl_cons]
    rw [ih]
    by_cases hlab : row_label sr.1 sr.2 = ""
    · simp [defect_step, hlab]
    · rcases hcase : normalized_lookup mapping (lowered (row_label sr.1 sr.2)) with _ | col'
      · simp [defect_step, hlab, hcase]
      · have hne : col' ≠ "" := by
          rcases normalized_lookup_mem hcase with ⟨p, hp, hpcol⟩
          exact hpcol ▸ hm p hp
        by_cases hcol : col = col'
        · subst hcol
          simp [defect_step, hlab, hcase, hne, add_assoc]
        · have hcol' : ¬ col' = col := fun h => hcol h.symm
          simp [defect_step, hlab, hcase, hne, hcol, hcol']

/-- Helper for C8: the unmatched total of the scan fold, when every
configured target column is nonempty. -/
theorem defect_fold_unmatched (mapping : List (String × String))
    (hm : ∀ p ∈ mapping, p.2 ≠ "") :
    ∀ (l : List (Sheet × Nat)) (acc : DefectTotals),
    (l.foldl (defect_step mapping) acc).unmatched =
      acc.unmatched +
        (((l.filter (fun sr => row_label sr.1 sr.2 ≠ "")).filter
            (fun sr => normalized_lookup mapping (lowered (row_label sr.1 sr.2)) = none)).map
          (fun sr => row_points sr.1 sr.2)).sum := by
  intro l
  induction l with
  | nil => intro acc; simp
  | cons sr t ih =>
    intro acc
    simp only [List.foldl_cons]
    rw [ih]
    by_cases hlab : row_label sr.1 sr.2 = ""
    · simp [defect_step, hlab]
    · rcases hcase : normalized_lookup mapping (lowered (row_label sr.1 sr.2)) with _ | col'
      · simp [defect_step, hlab, hcase, add_assoc]
      · have hne : col' ≠ "" := by
          rcases normalized_lookup_mem hcase with ⟨p, hp, hpcol⟩
          exact hpcol ▸ hm p hp
        simp [defect_step, hlab, hcase, hne]

/-- C8: the defect-grid scan reads rows 23-38 and columns V (22) through
AO (41) of exactly the visible sheets whose title starts with "Page "; for
every dictionary whose configured target columns are nonempty (the
truthiness test `if target_col:` of line 186 would demote a match to an
empty-string column to the unmatched bucket), every row with a non-blank
trimmed label has its numeric row sum accumulated under the configured
category matched case-insensitively and trimmed, and every labelled row
matching no dictionary entry accumulates into the one unmatched bucket. -/
theorem defect_extraction_spec :
    grid_rows = [23, 24, 25, 26, 27, 28, 29, 30, 31, 32, 33, 34, 35, 36, 37, 38] ∧
    grid_cols = [22, 23, 24, 25, 26, 27, 28, 29, 30, 31, 32, 33, 34, 35, 36, 37,
      38, 39, 40, 41] ∧
    (∀ (mapping : List (String × String)) (wb : Workbook) (col : String),
      (∀ p ∈ mapping, p.2 ≠ "") →
      (extract_defect_points mapping wb).points col = spec_category_total mapping wb col) ∧
    (∀ (mapping : List (String × String)) (wb : Workbook),
      (∀ p ∈ mapping, p.2 ≠ "") →
      (extract_defect_points mapping wb).unmatched = spec_unmatched_total mapping wb) := by
  refine ⟨by decide, by decide, ?_, ?_⟩
  · intro mapping wb col hm
    rw [extract_defect_points, defect_fold_points mapping hm, spec_category_total,
      labelled_rows]
    simp
  · intro mapping wb hm
    rw [extract_defect_points, defect_fold_unmatched mapping hm, spec_unmatched_total,
      labelled_rows]
    simp

/-- Witness for C8: a one-entry dictionary mapping "Hole" to column "AD"
satisfies the nonempty-column hypothesis, and the category and unmatched
equalities hold for it on a workbook. -/
theorem defect_extraction_spec_witness :
    (∀ p ∈ [("Hole", "AD")], p.2 ≠ "") ∧
    (extract_defect_points [("Hole", "AD")] emptyWorkbook).points "AD" =
      spec_category_total [("Hole", "AD")] emptyWorkbook "AD" ∧
    (extract_defect_points [("Hole", "AD")] emptyWorkbook).unmatched =
      spec_unmatched_total [("Hole", "AD")] emptyWorkbook :=
  ⟨by decide,
   defect_extraction_spec.2.2.1 [("Hole", "AD")] emptyWorkbook "AD" (by decide),
   defect_extraction_spec.2.2.2 [("Hole", "AD")] emptyWorkbook (by decide)⟩
